import Mathlib

/-!
Shallow embedding of `src/frontend/src/context/AuthContext.tsx` (the NOVA
auth coordinator) and proofs about its state machine.

The source is a React context provider around a Firebase session listener:

* `AuthState` is the single state record (`user`, `isAuthenticated`,
  `isLoading`, `error`), initialised to
  `{user: null, isAuthenticated: false, isLoading: true, error: null}`.
* `onAuthStateChanged` callback: on a presence event it awaits
  `apiClient.getProfile()` and on success commits
  `{user: {uid, ...profile}, isAuthenticated: true, isLoading: false,
  error: null}` and calls `authManager.setAuth(empty, uid)`; on fetch
  failure it commits `prev => ({...prev, error: "Failed to load profile"})`.
  On an absence event it calls `authManager.clearAuth()` and commits
  `{user: null, isAuthenticated: false, isLoading: false, error: null}`.
* `login` / `signup` first commit `prev => ({...prev, isLoading: true,
  error: null})`, then call the backend and the provider token exchange;
  on failure they commit `prev => ({...prev, isLoading: false, error:
  errMsg})` and re-throw, where `errMsg` is the message of the thrown
  `Error` (falling back to "Login failed" / "Signup failed").
* `logout` awaits `auth.signOut()` and fires `apiClient.logout()` inside a
  try/catch that only logs; it commits no state.
* `clearError` commits `prev => ({...prev, error: null})`.
* `useAuth` throws "useAuth must be used within an AuthProvider" when the
  context value is null, otherwise returns the context value.

The callback body suspends at the `await apiClient.getProfile()`; the
interleaving of pending fetch continuations with later events is modelled
by an explicit action trace (`Action`, `applyAction`, `runTrace`).  Two
ghost fields (`providerSession`, `origin`) instrument the world state for
the temporal claims; they influence nothing the embedded code computes.

`apiClient` and `authManager` are not part of the sources; per the spec
they are black boxes.  The profile record is modelled with the non-uid
fields of the `User` interface (`email?`, `displayName?`); the spec states
that backend profile fields are the non-uid fields of the user record.
-/

namespace AuthCtx

/-- Profile fields returned by `apiClient.getProfile()` (black-box backend
collaborator; per the spec these are the non-uid fields of the user
record). -/
structure Profile where
  email : Option String
  displayName : Option String
deriving Repr, DecidableEq

/-- The `User` interface of the source: `{ uid: string; email?: string;
displayName?: string }`. -/
structure User where
  uid : String
  email : Option String
  displayName : Option String
deriving Repr, DecidableEq

/-- The `AuthState` interface of the source. `Option` stands for
`T | null`. -/
structure AuthState where
  user : Option User
  isAuthenticated : Bool
  isLoading : Bool
  error : Option String
deriving Repr, DecidableEq

/-- A thrown JavaScript value: `isError` is `error instanceof Error`,
`message` its message when it is an `Error`. -/
structure JsError where
  isError : Bool
  message : String
deriving Repr, DecidableEq

/-- The `errMsg` computation of `login` / `signup`:
`error instanceof Error ? error.message : fallback`. -/
def errMsgOf (e : JsError) (fallback : String) : String :=
  if e.isError then e.message else fallback

/-- The initial state passed to `useState` in `AuthProvider` (lines 33-38). -/
def initialState : AuthState :=
  { user := none, isAuthenticated := false, isLoading := true, error := none }

/-- The merge `{ uid, ...profile }` on the presence-success commit
(line 50).  The profile is spread over the non-uid fields. -/
def mergeUser (uid : String) (p : Profile) : User :=
  { uid := uid, email := p.email, displayName := p.displayName }

/-- The state committed by the absence branch (lines 62-67). -/
def absenceState : AuthState :=
  { user := none, isAuthenticated := false, isLoading := false, error := none }

/-- The state committed by the presence-success branch (lines 49-54). -/
def presenceSuccessState (uid : String) (p : Profile) : AuthState :=
  { user := some (mergeUser uid p), isAuthenticated := true,
    isLoading := false, error := none }

/-- The state committed by the catch of the profile fetch (line 58):
`prev => ({ ...prev, error: "Failed to load profile" })`. -/
def presenceFailState (prev : AuthState) : AuthState :=
  { prev with error := some "Failed to load profile" }

/-- A side effect performed by the session-change callback, in order:
a state commit (`setState`), or a call on the `authManager` cache. -/
inductive Effect where
  | clearCache : Effect
  | setCache (uid : String) : Effect
  | commit (s : AuthState) : Effect
deriving Repr, DecidableEq

/-- The absence branch of the `onAuthStateChanged` callback (lines 60-68):
`authManager.clearAuth()` first, then the commit. -/
def handleAbsence : List Effect :=
  [Effect.clearCache, Effect.commit absenceState]

/-- An in-flight profile fetch: the uid captured by the callback closure
and the outcome the fetch will have when it resolves (`some p` = the
profile, `none` = rejection). -/
structure Fetch where
  uid : String
  result : Option Profile
deriving Repr, DecidableEq

/-- The continuation of the presence branch after `await
apiClient.getProfile()` resolves (lines 48-59): on success commit the
merged user then `authManager.setAuth`, on failure commit only the error
field over the state current at resolution time. -/
def handleResolve (prev : AuthState) (f : Fetch) : List Effect :=
  match f.result with
  | some p => [Effect.commit (presenceSuccessState f.uid p), Effect.setCache f.uid]
  | none => [Effect.commit (presenceFailState prev)]

/-- The world the callbacks act on: the React state, the `authManager`
cached uid, and the queue of pending profile fetches.  `providerSession`
and `origin` are ghost instrumentation for the temporal claims: the
subject of the provider session as last reported, and the fetch whose
successful resolution produced the current `user` value. -/
structure World where
  state : AuthState
  cache : Option String
  pending : List Fetch
  providerSession : Option String
  origin : Option Fetch
deriving Repr, DecidableEq

/-- The world at provider mount: initial React state, nothing cached,
no pending fetch. -/
def initWorld : World :=
  { state := initialState, cache := none, pending := [],
    providerSession := none, origin := none }

/-- Interpretation of one callback side effect on the world. -/
def applyEffect (w : World) (e : Effect) : World :=
  match e with
  | Effect.clearCache => { w with cache := none }
  | Effect.setCache uid => { w with cache := some uid }
  | Effect.commit s => { w with state := s }

/-- The optimistic commit at the top of `login` and `signup` (lines 75,
87): `prev => ({ ...prev, isLoading: true, error: null })`. -/
def loginOptimistic (s : AuthState) : AuthState :=
  { s with isLoading := true, error := none }

/-- The commit in the catch of `login` / `signup` (lines 81, 93):
`prev => ({ ...prev, isLoading: false, error: errMsg })`. -/
def opFailState (s : AuthState) (e : JsError) (fallback : String) : AuthState :=
  { s with isLoading := false, error := some (errMsgOf e fallback) }

/-- The commit of `clearError` (line 108):
`prev => ({ ...prev, error: null })`. -/
def clearError (s : AuthState) : AuthState :=
  { s with error := none }

/-- One scheduler step of the event-driven execution:
either a provider session-change event arrives (the presence handler runs
to its `await` and suspends, queuing a fetch; the absence handler runs to
completion), a pending fetch resolves and its continuation commits, an
operation runs its synchronous prefix or its catch, or `clearError` runs. -/
inductive Action where
  | presenceEvt (uid : String) (result : Option Profile) : Action
  | absenceEvt : Action
  | resolveFetch (i : Nat) : Action
  | loginStart : Action
  | loginFail (e : JsError) : Action
  | signupStart : Action
  | signupFail (e : JsError) : Action
  | logoutCall : Action
  | clearErrorCall : Action
deriving Repr, DecidableEq

/-- Resolution of the pending profile fetch at index `i` (if any): its
continuation commits over the state current at resolution time; the ghost
`origin` records the fetch when its resolution installed a user. -/
def resolveStep (w : World) (i : Nat) : World :=
  match w.pending[i]? with
  | none => w
  | some f =>
      let w1 : World := { w with pending := w.pending.eraseIdx i }
      let w2 := (handleResolve w.state f).foldl applyEffect w1
      match f.result with
      | some _ => { w2 with origin := some f }
      | none => w2

/-- Deterministic interpretation of one action on the world. -/
def applyAction (w : World) (a : Action) : World :=
  match a with
  | Action.presenceEvt uid r =>
      { w with pending := w.pending ++ [⟨uid, r⟩], providerSession := some uid }
  | Action.absenceEvt =>
      let w1 := handleAbsence.foldl applyEffect w
      { w1 with providerSession := none, origin := none }
  | Action.resolveFetch i => resolveStep w i
  | Action.loginStart => { w with state := loginOptimistic w.state }
  | Action.loginFail e => { w with state := opFailState w.state e "Login failed" }
  | Action.signupStart => { w with state := loginOptimistic w.state }
  | Action.signupFail e => { w with state := opFailState w.state e "Signup failed" }
  | Action.logoutCall => w
  | Action.clearErrorCall => { w with state := clearError w.state }

/-- The world reached from provider mount by a trace of actions. -/
def runTrace (as : List Action) : World :=
  as.foldl applyAction initWorld

/-- The `login` operation (lines 74-84) as a function of the prior state,
the backend call outcome, and the token-exchange outcome: it returns the
ordered list of states it commits and its own outcome (`Except.error e`
models the re-throw).  Email and password only feed the black-box backend
call, which is abstracted by its outcome. -/
def login (prev : AuthState) (backend : Except JsError String)
    (exchange : String → Except JsError Unit) :
    List AuthState × Except JsError Unit :=
  let s1 := loginOptimistic prev
  match backend with
  | Except.error e => ([s1, opFailState s1 e "Login failed"], Except.error e)
  | Except.ok tok =>
      match exchange tok with
      | Except.error e => ([s1, opFailState s1 e "Login failed"], Except.error e)
      | Except.ok _ => ([s1], Except.ok ())

/-- The `signup` operation (lines 86-96), same shape as `login` with the
"Signup failed" fallback message. -/
def signup (prev : AuthState) (backend : Except JsError String)
    (exchange : String → Except JsError Unit) :
    List AuthState × Except JsError Unit :=
  let s1 := loginOptimistic prev
  match backend with
  | Except.error e => ([s1, opFailState s1 e "Signup failed"], Except.error e)
  | Except.ok tok =>
      match exchange tok with
      | Except.error e => ([s1, opFailState s1 e "Signup failed"], Except.error e)
      | Except.ok _ => ([s1], Except.ok ())

/-- The `logout` operation (lines 98-105) as a function of the sign-out
outcome and the backend logout outcome: it returns the states it commits,
its own outcome, and the console log lines.  A sign-out rejection is
caught and logged; `apiClient.logout()` is fired without `await`, so its
outcome is neither awaited nor caught and cannot affect `logout`. -/
def logout (signOutR : Except JsError Unit) (_backendR : Except JsError Unit) :
    List AuthState × Except JsError Unit × List String :=
  match signOutR with
  | Except.error _ => ([], Except.ok (), ["Logout failed:"])
  | Except.ok _ => ([], Except.ok (), [])

/-- The context value type: the state plus the four operations, as
provided by `AuthContext.Provider` (line 112). -/
structure AuthContextType where
  state : AuthState
  loginOp : AuthState → Except JsError String → (String → Except JsError Unit) →
    List AuthState × Except JsError Unit
  signupOp : AuthState → Except JsError String → (String → Except JsError Unit) →
    List AuthState × Except JsError Unit
  logoutOp : Except JsError Unit → Except JsError Unit →
    List AuthState × Except JsError Unit × List String
  clearErrorOp : AuthState → AuthState

/-- The value the provider places in the context for a current state `s`. -/
def providerValue (s : AuthState) : AuthContextType :=
  { state := s, loginOp := login, signupOp := signup, logoutOp := logout,
    clearErrorOp := clearError }

/-- The `useAuth` hook (lines 118-124): `Except.error` models the throw
when the context value is null. -/
def useAuth (ctx : Option AuthContextType) : Except String AuthContextType :=
  match ctx with
  | none => Except.error "useAuth must be used within an AuthProvider"
  | some c => Except.ok c

/-! Concrete inputs used in counterexamples and witnesses. -/

/-- A profile for subject A used in the stale-fetch trace. -/
def profileA : Profile := { email := some "a@x.com", displayName := none }

/-- Failing trace for the staleness claim: presence for A suspends its
fetch, the absence event commits the signed-out state, then the stale
fetch resolves. -/
def staleTrace : List Action :=
  [Action.presenceEvt "A" (some profileA), Action.absenceEvt,
   Action.resolveFetch 0]

/-- Failing trace for the isLoading claim: the first provider callback is
a presence whose profile fetch rejects. -/
def loadingStuckTrace : List Action :=
  [Action.presenceEvt "u1" none, Action.resolveFetch 0]

/-- A profile for subject B used in the uid-vs-session counterexample. -/
def profileB : Profile := { email := some "b@x.com", displayName := none }

/-- Trace in which the committed uid no longer matches the provider
session: presence for B with pending fetch, absence, late resolution. -/
def staleUidTrace : List Action :=
  [Action.presenceEvt "B" (some profileB), Action.absenceEvt,
   Action.resolveFetch 0]

/-- A profile used in the witness trace for the uid-provenance claim. -/
def profileU1 : Profile := { email := some "a@x.com", displayName := none }

/-- Witness trace: a single presence event whose fetch succeeds. -/
def presenceOnlyTrace : List Action :=
  [Action.presenceEvt "u1" (some profileU1), Action.resolveFetch 0]

/-- A backend failure carrying the message of scenario 3 of the spec. -/
def invalidCred : JsError := { isError := true, message := "invalid credentials" }

/-- A token exchange that always rejects with `invalidCred`. -/
def exchangeReject : String → Except JsError Unit :=
  fun _ => Except.error invalidCred

/-! Theorems. -/

/-- C3: processing a session-absence event first calls `clearAuth` and
then commits exactly `{user: absent, isAuthenticated: false, isLoading:
false, error: absent}`; the resulting state and cache are independent of
the prior world. -/
theorem c3_absence_clears_cache_then_resets (w : World) :
    handleAbsence = [Effect.clearCache,
      Effect.commit { user := none, isAuthenticated := false,
                      isLoading := false, error := none }]
    ∧ (applyAction w Action.absenceEvt).state =
        { user := none, isAuthenticated := false,
          isLoading := false, error := none }
    ∧ (applyAction w Action.absenceEvt).cache = none :=
  ⟨rfl, rfl, rfl⟩

/-- C4 counterexample: at the concrete prior state `initialState` the
fetch-failure branch commits the error string "Failed to load profile",
not "profile load failed" as the claim states. -/
theorem c4_error_string_counterexample :
    handleResolve initialState ⟨"u1", none⟩ =
      [Effect.commit { initialState with error := some "Failed to load profile" }]
    ∧ some "Failed to load profile" ≠ some "profile load failed" :=
  ⟨rfl, by decide⟩

/-- C4 (amended): when the profile fetch of a presence event fails, the
callback commits a single state that changes only the error field, setting
it to "Failed to load profile", and leaves user, isAuthenticated and
isLoading exactly as they were; in particular a fetch failure never turns
an authenticated state into an unauthenticated one. -/
theorem c4_fetch_failure_frame (prev : AuthState) (uid : String) :
    ∃ s, handleResolve prev ⟨uid, none⟩ = [Effect.commit s]
      ∧ s.error = some "Failed to load profile"
      ∧ s.user = prev.user
      ∧ s.isAuthenticated = prev.isAuthenticated
      ∧ s.isLoading = prev.isLoading :=
  ⟨presenceFailState prev, rfl, rfl, rfl, rfl, rfl⟩

/-- C7: for every outcome of the provider sign-out and of the backend
logout call, `logout` returns normally (never re-raises) and commits no
state at all; the state is only cleared later by the absence event. -/
theorem c7_logout_never_throws (r1 r2 : Except JsError Unit) :
    (logout r1 r2).2.1 = Except.ok () ∧ (logout r1 r2).1 = [] := by
  cases r1 <;> exact ⟨rfl, rfl⟩

/-- C8: `clearError` sets the error field to absent, changes no other
field, and is idempotent. -/
theorem c8_clearError_frame_idempotent (s : AuthState) :
    (clearError s).error = none
    ∧ (clearError s).user = s.user
    ∧ (clearError s).isAuthenticated = s.isAuthenticated
    ∧ (clearError s).isLoading = s.isLoading
    ∧ clearError (clearError s) = clearError s :=
  ⟨rfl, rfl, rfl, rfl, rfl⟩

/-- C10: `useAuth` on an absent context value fails with exactly the
message "useAuth must be used within an AuthProvider"; on a present
context value it returns that value without failing, and the value the
provider supplies carries the current state together with the four
operations login, signup, logout and clearError. -/
theorem c10_useAuth_contract (c : AuthContextType) (s : AuthState) :
    useAuth none = Except.error "useAuth must be used within an AuthProvider"
    ∧ useAuth (some c) = Except.ok c
    ∧ (providerValue s).state = s
    ∧ (providerValue s).loginOp = login
    ∧ (providerValue s).signupOp = signup
    ∧ (providerValue s).logoutOp = logout
    ∧ (providerValue s).clearErrorOp = clearError :=
  ⟨rfl, rfl, rfl, rfl, rfl, rfl, rfl⟩

/-- C2: evaluating the code on the failing trace shows the staleness
discipline is absent: presence for A suspends its fetch, the absence event
commits the signed-out state, then the stale fetch resolves and its
continuation commits an authenticated state for A although the provider
session is absent — the stale result is not discarded. -/
theorem c2_stale_fetch_resurrects_user :
    (runTrace staleTrace).state.isAuthenticated = true
    ∧ (runTrace staleTrace).state.user = some (mergeUser "A" profileA)
    ∧ (runTrace staleTrace).providerSession = none :=
  ⟨rfl, rfl, rfl⟩

/-- C5: evaluating the code on the failing trace shows the catch of the
profile fetch leaves isLoading untouched: starting from the initial state
(isLoading true), after the first provider callback completes its
fetch-failure handling, isLoading is still true although no login or
signup is in flight — it is not reset to false as the claim states. -/
theorem c5_isLoading_stuck_after_failed_first_fetch :
    (runTrace loadingStuckTrace).state.isLoading = true
    ∧ (runTrace loadingStuckTrace).state.error = some "Failed to load profile" :=
  ⟨rfl, rfl⟩

/-- Helper: every scheduler action preserves the agreement between
`isAuthenticated` and presence of `user`. -/
theorem authInv_step (w : World) (a : Action)
    (h : w.state.isAuthenticated = w.state.user.isSome) :
    (applyAction w a).state.isAuthenticated =
      (applyAction w a).state.user.isSome := by
  cases a with
  | presenceEvt uid r => exact h
  | absenceEvt => rfl
  | resolveFetch i =>
      have ha : applyAction w (Action.resolveFetch i) = resolveStep w i := rfl
      rw [ha]
      cases hp : w.pending[i]? with
      | none =>
          simp only [resolveStep, hp]
          exact h
      | some f =>
          cases hr : f.result with
          | some p =>
              simp [resolveStep, hp, hr, handleResolve, applyEffect,
                presenceSuccessState]
          | none =>
              simpa [resolveStep, hp, hr, handleResolve, applyEffect,
                presenceFailState] using h
  | loginStart => exact h
  | loginFail e => exact h
  | signupStart => exact h
  | signupFail e => exact h
  | logoutCall => exact h
  | clearErrorCall => exact h

/-- Helper: the agreement between `isAuthenticated` and presence of
`user` is preserved along any action trace. -/
theorem authInv_run (as : List Action) :
    ∀ w : World, w.state.isAuthenticated = w.state.user.isSome →
      ((as.foldl applyAction w).state.isAuthenticated =
        (as.foldl applyAction w).state.user.isSome) := by
  induction as with
  | nil => intro w h; exact h
  | cons a as ih => intro w h; exact ih (applyAction w a) (authInv_step w a h)

/-- C1: in the initial state and after any trace of session-change
callbacks, fetch resolutions, login, signup, logout and clearError
commits, `isAuthenticated` is true exactly when `user` is present. -/
theorem c1_isAuthenticated_iff_user_present (as : List Action) :
    (runTrace as).state.isAuthenticated = (runTrace as).state.user.isSome :=
  authInv_run as initWorld rfl

/-- Helper: every scheduler action preserves the provenance of the
committed user record: whenever `user` is present it is the all-or-nothing
merge of the uid and profile of the fetch recorded in `origin`. -/
theorem originInv_step (w : World) (a : Action)
    (h : ∀ u, w.state.user = some u →
      ∃ f p, w.origin = some f ∧ f.result = some p ∧ u = mergeUser f.uid p) :
    ∀ u, (applyAction w a).state.user = some u →
      ∃ f p, (applyAction w a).origin = some f ∧ f.result = some p
        ∧ u = mergeUser f.uid p := by
  cases a with
  | presenceEvt uid r => exact h
  | absenceEvt =>
      intro u hu
      simp [applyAction, handleAbsence, applyEffect, absenceState] at hu
  | resolveFetch i =>
      have ha : applyAction w (Action.resolveFetch i) = resolveStep w i := rfl
      rw [ha]
      cases hp : w.pending[i]? with
      | none =>
          simpa only [resolveStep, hp] using h
      | some f =>
          cases hr : f.result with
          | some p =>
              intro u hu
              refine ⟨f, p, ?_, hr, ?_⟩
              · simp [resolveStep, hp, hr, handleResolve, applyEffect]
              · have hs : some (mergeUser f.uid p) = some u := by
                  simpa [resolveStep, hp, hr, handleResolve, applyEffect,
                    presenceSuccessState] using hu
                exact (Option.some.inj hs).symm
          | none =>
              intro u hu
              have hu2 : w.state.user = some u := by
                simpa [resolveStep, hp, hr, handleResolve, applyEffect,
                  presenceFailState] using hu
              simpa [resolveStep, hp, hr, handleResolve, applyEffect] using h u hu2
  | loginStart => exact h
  | loginFail e => exact h
  | signupStart => exact h
  | signupFail e => exact h
  | logoutCall => exact h
  | clearErrorCall => exact h

/-- Helper: the provenance of the committed user record is preserved
along any action trace. -/
theorem originInv_run (as : List Action) :
    ∀ w : World,
      (∀ u, w.state.user = some u →
        ∃ f p, w.origin = some f ∧ f.result = some p ∧ u = mergeUser f.uid p) →
      ∀ u, (as.foldl applyAction w).state.user = some u →
        ∃ f p, (as.foldl applyAction w).origin = some f ∧ f.result = some p
          ∧ u = mergeUser f.uid p := by
  induction as with
  | nil => intro w h; exact h
  | cons a as ih => intro w h; exact ih (applyAction w a) (originInv_step w a h)

/-- C9 counterexample: after presence for B whose fetch is still pending,
an absence event, and the late resolution of that fetch, the committed
user carries uid B while the provider current session is absent — so the
uid in `user` does not match the identity provider current session
subject. -/
theorem c9_uid_vs_live_session_counterexample :
    (runTrace staleUidTrace).state.user = some (mergeUser "B" profileB)
    ∧ (runTrace staleUidTrace).providerSession ≠
        some (mergeUser "B" profileB).uid :=
  ⟨rfl, by decide⟩

/-- C9 (amended): in every reachable state in which `user` is present, the
user record is exactly the merge of the uid captured by the presence event
whose fetch produced the commit (recorded in the `origin` ghost field)
with the whole fetched profile — the uid comes from that event and the
profile fields are taken all-or-nothing, never partially.  The uid may
differ from the provider live session subject when a stale fetch commits
after a session change. -/
theorem c9_user_uid_from_producing_fetch (as : List Action) (u : User)
    (h : (runTrace as).state.user = some u) :
    ∃ f p, (runTrace as).origin = some f ∧ f.result = some p
      ∧ u = mergeUser f.uid p ∧ u.uid = f.uid
      ∧ u.email = p.email ∧ u.displayName = p.displayName := by
  have key := originInv_run as initWorld
    (by intro u hu; simp [initWorld, initialState] at hu) u h
  obtain ⟨f, p, ho, hr, hm⟩ := key
  exact ⟨f, p, ho, hr, hm, by simp [hm, mergeUser], by simp [hm, mergeUser],
    by simp [hm, mergeUser]⟩

/-- Witness for C9 at a concrete trace: one presence event for u1 whose
fetch resolves with `profileU1`. -/
theorem c9_user_uid_witness :
    ∃ f p, (runTrace presenceOnlyTrace).origin = some f ∧ f.result = some p
      ∧ mergeUser "u1" profileU1 = mergeUser f.uid p
      ∧ (mergeUser "u1" profileU1).uid = f.uid
      ∧ (mergeUser "u1" profileU1).email = p.email
      ∧ (mergeUser "u1" profileU1).displayName = p.displayName :=
  c9_user_uid_from_producing_fetch presenceOnlyTrace (mergeUser "u1" profileU1) rfl

/-- C6: whichever of the backend call and the token exchange fails with an
`Error` value `e`, `login` commits first the optimistic state (isLoading
true, error absent) and then the failure state (isLoading false, error set
to the message of `e`), and its own outcome is a rejection with the same
`e`; `signup` behaves identically. -/
theorem c6_login_signup_failure (prev : AuthState) (e : JsError) (tok : String)
    (exch : String → Except JsError Unit)
    (he : e.isError = true) (hex : exch tok = Except.error e) :
    login prev (Except.error e) exch =
      ([{ prev with isLoading := true, error := none },
        { prev with isLoading := false, error := some e.message }],
       Except.error e)
    ∧ login prev (Except.ok tok) exch =
      ([{ prev with isLoading := true, error := none },
        { prev with isLoading := false, error := some e.message }],
       Except.error e)
    ∧ signup prev (Except.error e) exch =
      ([{ prev with isLoading := true, error := none },
        { prev with isLoading := false, error := some e.message }],
       Except.error e)
    ∧ signup prev (Except.ok tok) exch =
      ([{ prev with isLoading := true, error := none },
        { prev with isLoading := false, error := some e.message }],
       Except.error e) := by
  refine ⟨?_, ?_, ?_, ?_⟩ <;>
    simp [login, signup, hex, loginOptimistic, opFailState, errMsgOf, he]

/-- Witness for C6 at concrete inputs: the backend rejects with the
`Error` "invalid credentials" (and, in the exchange branches, the exchange
rejects with the same error). -/
theorem c6_login_signup_failure_witness :
    login initialState (Except.error invalidCred) exchangeReject =
      ([{ initialState with isLoading := true, error := none },
        { initialState with isLoading := false, error := some "invalid credentials" }],
       Except.error invalidCred)
    ∧ login initialState (Except.ok "tok") exchangeReject =
      ([{ initialState with isLoading := true, error := none },
        { initialState with isLoading := false, error := some "invalid credentials" }],
       Except.error invalidCred)
    ∧ signup initialState (Except.error invalidCred) exchangeReject =
      ([{ initialState with isLoading := true, error := none },
        { initialState with isLoading := false, error := some "invalid credentials" }],
       Except.error invalidCred)
    ∧ signup initialState (Except.ok "tok") exchangeReject =
      ([{ initialState with isLoading := true, error := none },
        { initialState with isLoading := false, error := some "invalid credentials" }],
       Except.error invalidCred) :=
  c6_login_signup_failure initialState invalidCred "tok" exchangeReject rfl rfl

end AuthCtx
